import Mathlib

/-!
Verification of the message rule engine of the Python-Automation-Scripting
repository: a shallow embedding of `personalized_messaging.py` (the class
`PersonalizedMessenger`) and of the dispatch helpers of
`automation_bonus.py`, with theorems about the message generation rules,
the batch email loop and the Telegram queue builder.

Python strings are modelled as `String`, nullable CSV cells as
`Option String`, and a Python runtime error (`IndexError`) as `none` in an
`Option` result.  `str.split()`, `str.strip()` and `str.lower()` are
re-implemented on the character list of the string so that every
definition reduces in the kernel.
-/

/-- One row of the cleaned CSV (`cleaned_output.csv`) as read by
`PersonalizedMessenger`.  `name` is the display name (the empty string
models an absent name), `jobTitle` is the `Job Title` column where `none`
models a null (`NaN`) cell, `hasJoinedEvent` is the attendance flag and
`linkedinFlag` is true when the LinkedIn profile link is missing or
malformed (line 20: `linkedin_flag True means missing/incomplete`). -/
structure Contact where
  email : String
  name : String
  jobTitle : Option String
  hasJoinedEvent : Bool
  linkedinFlag : Bool
deriving DecidableEq, Repr

/-- Python `str.split()` with no arguments, on a character list: split on
runs of whitespace and drop empty pieces.  `acc` holds the characters of
the token currently being read, in reverse. -/
def pySplitAux : List Char → List Char → List String
  | [], [] => []
  | [], acc => [String.mk acc.reverse]
  | c :: cs, acc =>
    if c.isWhitespace then
      match acc with
      | [] => pySplitAux cs []
      | _ => String.mk acc.reverse :: pySplitAux cs []
    else pySplitAux cs (c :: acc)

/-- Python `s.split()`: whitespace-delimited tokens of `s`. -/
def pySplit (s : String) : List String :=
  pySplitAux s.data []

/-- Python `str.strip()`: remove leading and trailing whitespace. -/
def pyStrip (s : String) : String :=
  String.mk (((s.data.dropWhile Char.isWhitespace).reverse.dropWhile
    Char.isWhitespace).reverse)

/-- Python `str.lower()` on one character (ASCII range, which is all the
source compares against). -/
def pyCharLower (c : Char) : Char :=
  if 65 ≤ c.toNat ∧ c.toNat ≤ 90 then Char.ofNat (c.toNat + 32) else c

/-- Python `str.lower()`. -/
def pyLower (s : String) : String :=
  String.mk (s.data.map pyCharLower)

/-- Line 17 of `personalized_messaging.py`:
`name = row['name'].split()[0] if row['name'] else "there"`.
Returns `none` exactly when the subscript `[0]` raises `IndexError`,
i.e. when the name is nonempty but entirely whitespace. -/
def greetingName (name : String) : Option String :=
  if name = "" then some "there" else (pySplit name).head?

/-- Line 18: `job_title = row['Job Title'] if pd.notna(row['Job Title'])
and row['Job Title'].strip() else None`.  The kept value is the raw,
untrimmed cell. -/
def pyJobTitle (row : Contact) : Option String :=
  match row.jobTitle with
  | none => none
  | some t => if pyStrip t ≠ "" then some t else none

/-- Lines 23-34: the four base message templates, selected by nested
conditionals on `has_joined_event` and on
`job_title and job_title.lower() != 'unemployed'`. -/
def baseMessage (name : String) (row : Contact) : String :=
  let job_title := pyJobTitle row
  if row.hasJoinedEvent then
    match job_title with
    | some jt =>
      if pyLower jt ≠ "unemployed" then
        "🎉 Hey " ++ name ++ ", thanks for joining our session! As a " ++
          pyLower jt ++
          ", we think you\x27ll love our upcoming AI workflow tools. Want early access?"
      else
        "🎉 Hey " ++ name ++
          ", thanks for joining our session! We\x27re excited to have had you participate and would love to keep you updated on our upcoming events and tools!"
    | none =>
        "🎉 Hey " ++ name ++
          ", thanks for joining our session! We\x27re excited to have had you participate and would love to keep you updated on our upcoming events and tools!"
  else
    match job_title with
    | some jt =>
      if pyLower jt ≠ "unemployed" then
        "Hi " ++ name ++
          ", sorry we missed you at the last event! We\x27re preparing another session that might better suit your interests as a " ++
          jt ++ ". Hope to see you next time!"
      else
        "Hi " ++ name ++
          ", sorry we missed you at the last event! We\x27re preparing another session with exciting content that we think you\x27ll find valuable. Hope to see you next time!"
    | none =>
        "Hi " ++ name ++
          ", sorry we missed you at the last event! We\x27re preparing another session with exciting content that we think you\x27ll find valuable. Hope to see you next time!"

/-- The fixed networking-invitation sentence of line 38, leading space
included. -/
def LINKEDIN_SUFFIX : String :=
  " P.S. We\x27d love to connect with you on LinkedIn to keep you updated on future opportunities!"

/-- Lines 20 and 37-38: `has_linkedin = not row['linkedin_flag']`; the
suffix is appended when `not has_linkedin`. -/
def withLinkedinSuffix (row : Contact) (message : String) : String :=
  let has_linkedin := !row.linkedinFlag
  if !has_linkedin then message ++ LINKEDIN_SUFFIX else message

/-- Lines 15-40: `generate_personalized_message`.  `none` models the
`IndexError` raised on line 17 for a nonempty all-whitespace name. -/
def generate_personalized_message (row : Contact) : Option String :=
  (greetingName row.name).map
    (fun name => withLinkedinSuffix row (baseMessage name row))

/-- One entry of `self.messages` as built by `generate_all_messages`
(lines 48-54). -/
structure GeneratedMessage where
  email : String
  name : String
  message : String
  has_joined_event : Bool
  job_title : Option String
deriving DecidableEq, Repr

/-- Lines 42-56: `generate_all_messages` iterates the rows in order and
appends one record per row; a row on which generation raises propagates
the exception, so the whole call yields `none`. -/
def generate_all_messages : List Contact → Option (List GeneratedMessage)
  | [] => some []
  | row :: rest =>
    match generate_personalized_message row with
    | none => none
    | some m =>
      match generate_all_messages rest with
      | none => none
      | some out =>
        some ({ email := row.email, name := row.name, message := m,
                has_joined_event := row.hasJoinedEvent,
                job_title := row.jobTitle } :: out)

/-- The effective job title of the 2x2 template branch: present exactly
when the raw cell is non-null, non-blank after stripping, and its
(untrimmed) lowercase form is not the exact string `unemployed`. -/
def effectiveTitle (row : Contact) : Option String :=
  match pyJobTitle row with
  | none => none
  | some t => if pyLower t ≠ "unemployed" then some t else none

/-- A row name on which line 17 does not raise: either empty (the falsy
branch) or containing at least one whitespace-delimited token. -/
def nameOk (row : Contact) : Prop :=
  row.name = "" ∨ pySplit row.name ≠ []

/-! ## Embedding of the dispatchers of automation_bonus.py -/

/-- One record of `personalized_messages.csv` as loaded by
`EventAutomation.load_messages` (lines 18-26 of `automation_bonus.py`):
only the `email` and `message` columns are persisted by
`save_messages_csv`. -/
structure MessageRecord where
  email : String
  message : String
deriving DecidableEq, Repr

/-- Zero-padded decimal of width at least three: Python `"{:03d}"`. -/
def pad3 (n : Nat) : String :=
  if n < 10 then "00" ++ toString n
  else if n < 100 then "0" ++ toString n
  else toString n

/-- One item of the Telegram queue artifact (lines 205-215 of
`automation_bonus.py`). -/
structure QueueItem where
  id : String
  recipient_email : String
  message_text : String
  priority : String
  scheduled_delay_minutes : Nat
  tags : List String
  retry_count : Nat
  max_retries : Nat
  status : String
deriving DecidableEq, Repr

/-- Lines 196-215: one queue item built from the 0-based `enumerate`
index `i`, the matched data-frame row `user_data` and the loaded
message. -/
def mkQueueItem (i : Nat) (user_data : Contact) (msg : MessageRecord) : QueueItem :=
  let priority := if user_data.hasJoinedEvent then "high" else "normal"
  let delay_minutes := if user_data.hasJoinedEvent then 0 else 30
  { id := "msg_" ++ pad3 (i + 1),
    recipient_email := msg.email,
    message_text := msg.message,
    priority := priority,
    scheduled_delay_minutes := delay_minutes,
    tags := ["event_followup", "automated"],
    retry_count := 0,
    max_retries := 3,
    status := "pending" }

/-- Lines 194-217: the loop of `create_message_queue`.
`self.df[self.df['email'] == msg['email']].iloc[0]` keeps the first
data-frame row with a matching email and raises `IndexError` (modelled by
`none`) when there is none. -/
def queueItemsFrom (df : List Contact) : List MessageRecord → Nat → Option (List QueueItem)
  | [], _ => some []
  | msg :: rest, i =>
    match (df.filter (fun v => v.email == msg.email)).head? with
    | none => none
    | some user_data =>
      match queueItemsFrom df rest (i + 1) with
      | none => none
      | some qs => some (mkQueueItem i user_data msg :: qs)

/-- Lines 174-227: `create_message_queue` over the loaded messages,
starting at enumerate index 0. -/
def create_message_queue (df : List Contact) (msgs : List MessageRecord) :
    Option (List QueueItem) :=
  queueItemsFrom df msgs 0

/-- The observable outcome of `send_batch_emails` (lines 94-155 of
`automation_bonus.py`): which recipients were attempted, in order, and
the success/failure counters reported in the final summary. -/
structure BatchOutcome where
  attempted : List String
  successful_sends : Nat
  failed_sends : Nat
deriving DecidableEq, Repr

/-- Lines 104-142: the per-message loop of `send_batch_emails`.  The
body of the `try` (building the MIME message and `server.sendmail`) is
abstracted by the oracle `sendOk`: `sendOk i` tells whether delivery of
the `i`-th message succeeds or raises.  A raise is caught by the
per-item `except`, counted in `failed_sends`, and the loop continues. -/
def sendLoop (sendOk : Nat → Bool) : List MessageRecord → Nat → Nat → Nat → BatchOutcome
  | [], _, succ, fail => ⟨[], succ, fail⟩
  | msg :: rest, i, succ, fail =>
    let res :=
      if sendOk i then sendLoop sendOk rest (i + 1) (succ + 1) fail
      else sendLoop sendOk rest (i + 1) succ (fail + 1)
    ⟨msg.email :: res.attempted, res.successful_sends, res.failed_sends⟩

/-- `send_batch_emails` starting with both counters at zero
(lines 95-96). -/
def send_batch_emails (sendOk : Nat → Bool) (msgs : List MessageRecord) : BatchOutcome :=
  sendLoop sendOk msgs 0 0 0

instance nameOkDecidable (row : Contact) : Decidable (nameOk row) := by
  unfold nameOk
  infer_instance


/-! ## Helper lemmas -/

theorem append_ne_empty_left (a b : String) (ha : a ≠ "") : a ++ b ≠ "" := by
  intro h
  apply ha
  have hd := congrArg String.data h
  simp only [String.data_append] at hd
  apply String.ext
  simpa using List.append_eq_nil.mp hd |>.1

theorem withLinkedinSuffix_true (row : Contact) (m : String)
    (hl : row.linkedinFlag = true) :
    withLinkedinSuffix row m = m ++ LINKEDIN_SUFFIX := by
  simp [withLinkedinSuffix, hl]

theorem withLinkedinSuffix_false (row : Contact) (m : String)
    (hl : row.linkedinFlag = false) :
    withLinkedinSuffix row m = m := by
  simp [withLinkedinSuffix, hl]

theorem baseMessage_ne_empty (name : String) (row : Contact) :
    baseMessage name row ≠ "" := by
  simp only [baseMessage]
  split <;> split <;> try split
  all_goals (repeat apply append_ne_empty_left)
  all_goals decide

theorem greetingName_eq_some (row : Contact) (h : nameOk row) :
    ∃ g, greetingName row.name = some g := by
  by_cases hn : row.name = ""
  · exact ⟨"there", by simp [greetingName, hn]⟩
  · rcases h with h | h
    · exact absurd h hn
    · cases hs : pySplit row.name with
      | nil => exact absurd hs h
      | cons g gs => exact ⟨g, by simp [greetingName, hn, hs]⟩

theorem exists_generate_some (row : Contact) (h : nameOk row) :
    ∃ m, generate_personalized_message row = some m ∧ m ≠ "" := by
  obtain ⟨g, hg⟩ := greetingName_eq_some row h
  refine ⟨withLinkedinSuffix row (baseMessage g row), ?_, ?_⟩
  · simp [generate_personalized_message, hg]
  · cases hl : row.linkedinFlag
    · rw [withLinkedinSuffix_false row _ hl]
      exact baseMessage_ne_empty g row
    · rw [withLinkedinSuffix_true row _ hl]
      exact append_ne_empty_left _ _ (baseMessage_ne_empty g row)

/-! ## C1: totality of message generation -/

/-- C1 (amended): for every contact whose name is empty or has at least
one whitespace-delimited token, `generate_personalized_message` returns a
non-empty message.  Totality fails only for a nonempty all-whitespace
name, where line 17 (`row['name'].split()[0]`) raises `IndexError`. -/
theorem generate_total_on_ok_names (row : Contact) (h : nameOk row) :
    ∃ m, generate_personalized_message row = some m ∧ m ≠ "" :=
  exists_generate_some row h

/-- C1 witness: the amended totality theorem at a concrete contact. -/
theorem generate_total_on_ok_names_witness :
    ∃ m, generate_personalized_message
        ⟨"jane@example.com", "Jane Doe", some "Engineer", true, false⟩ = some m ∧
      m ≠ "" :=
  generate_total_on_ok_names
    ⟨"jane@example.com", "Jane Doe", some "Engineer", true, false⟩
    (Or.inr (by decide))

/-- C1 counterexample: on a contact whose name is `" "` (nonempty but all
whitespace) the generator raises `IndexError` on line 17 — no message is
produced, refuting the claimed total function with no failure path. -/
theorem generate_fails_on_whitespace_name :
    generate_personalized_message ⟨"ws@example.com", " ", none, true, false⟩ = none := by
  decide

/-! ## C7: determinism -/

/-- C7: generation is deterministic — two calls on the same row return the
same text; the embedding of `generate_personalized_message` is a pure
function of the row (the source reads only `row` and string literals). -/
theorem generate_deterministic (row : Contact) :
    generate_personalized_message row = generate_personalized_message row := rfl

/-! ## C10: the text depends only on four fields -/

/-- C10: the generated text depends only on the name, job title,
attendance flag and linkedin flag: two rows agreeing on those four fields
(differing in email or nothing else) generate identical output. -/
theorem generate_depends_only_on_four_fields (c₁ c₂ : Contact)
    (hn : c₁.name = c₂.name) (hj : c₁.jobTitle = c₂.jobTitle)
    (ha : c₁.hasJoinedEvent = c₂.hasJoinedEvent)
    (hl : c₁.linkedinFlag = c₂.linkedinFlag) :
    generate_personalized_message c₁ = generate_personalized_message c₂ := by
  cases c₁ with
  | mk e₁ n₁ j₁ a₁ l₁ =>
    cases c₂ with
    | mk e₂ n₂ j₂ a₂ l₂ =>
      obtain rfl : n₁ = n₂ := hn
      obtain rfl : j₁ = j₂ := hj
      obtain rfl : a₁ = a₂ := ha
      obtain rfl : l₁ = l₂ := hl
      rfl

/-- C10 witness: two contacts differing only in email get the same text. -/
theorem generate_depends_only_on_four_fields_witness :
    generate_personalized_message
        ⟨"first@example.com", "Jane Doe", some "Engineer", true, false⟩ =
      generate_personalized_message
        ⟨"second@example.org", "Jane Doe", some "Engineer", true, false⟩ :=
  generate_depends_only_on_four_fields
    ⟨"first@example.com", "Jane Doe", some "Engineer", true, false⟩
    ⟨"second@example.org", "Jane Doe", some "Engineer", true, false⟩
    rfl rfl rfl rfl

/-! ## C3: the "unemployed" sentinel -/

theorem baseMessage_sentinel (g e n : String) (a l : Bool) (t : String)
    (h : pyStrip t = "" ∨ pyLower t = "unemployed") :
    baseMessage g ⟨e, n, some t, a, l⟩ = baseMessage g ⟨e, n, none, a, l⟩ := by
  rcases h with h | h
  · simp [baseMessage, pyJobTitle, h]
  · by_cases hs : pyStrip t = ""
    · simp [baseMessage, pyJobTitle, hs]
    · cases a <;> simp [baseMessage, pyJobTitle, hs, h]

/-- C3 (corrected/amended): the effective job title is treated as absent
when the cell is null, blank/whitespace-only, or its UNtrimmed lowercase
form is exactly `"unemployed"` (the source compares
`job_title.lower()`, not `job_title.strip().lower()`); in particular
`job_title="Unemployed"` behaves identically to `job_title=None`.
Conversely any non-blank title whose untrimmed lowercase form differs
from `"unemployed"` — even one that merely contains it as a substring —
is present. -/
theorem title_sentinel_untrimmed (row : Contact) (t : String) :
    ((pyStrip t = "" ∨ pyLower t = "unemployed") →
      generate_personalized_message { row with jobTitle := some t } =
        generate_personalized_message { row with jobTitle := none }) ∧
    (pyStrip t ≠ "" → pyLower t ≠ "unemployed" →
      effectiveTitle { row with jobTitle := some t } = some t) := by
  obtain ⟨e, n, j, a, l⟩ := row
  constructor
  · intro h
    cases hg : greetingName n with
    | none =>
      show (greetingName n).map _ = (greetingName n).map _
      rw [hg]
      rfl
    | some g =>
      show (greetingName n).map _ = (greetingName n).map _
      rw [hg]
      simp only [Option.map_some']
      rw [baseMessage_sentinel g e n a l t h]
      rfl
  · intro hs hu
    simp [effectiveTitle, pyJobTitle, hs, hu]

/-- C3 witness: `job_title="Unemployed"` gives the same message as a null
job title. -/
theorem title_sentinel_untrimmed_witness :
    generate_personalized_message
        ⟨"u@example.com", "Ana", some "Unemployed", false, false⟩ =
      generate_personalized_message ⟨"u@example.com", "Ana", none, false, false⟩ :=
  (title_sentinel_untrimmed ⟨"u@example.com", "Ana", none, false, false⟩
    "Unemployed").1 (Or.inr (by decide))

/-- C3 counterexample: for `job_title=" Unemployed"` the trimmed title is
case-insensitively `"unemployed"`, so the claim says the title is absent
and the message must equal the null-title message; the code compares the
untrimmed `job_title.lower()`, keeps the title, and produces a different
message (it references `" Unemployed"` verbatim). -/
theorem sentinel_trimming_counterexample :
    generate_personalized_message
        ⟨"a@example.com", "Ana", some " Unemployed", false, false⟩ ≠
      generate_personalized_message ⟨"a@example.com", "Ana", none, false, false⟩ := by
  decide

/-! ## C5: the networking suffix -/

/-- C5: the fixed networking-invitation suffix is appended exactly when
the linkedin flag (profile incomplete) is true, whatever base template
was chosen: with the flag set, the text is the flag-clear text with
`LINKEDIN_SUFFIX` appended at the end, and with the flag clear the text
is the base message alone. -/
theorem linkedin_suffix_appended_iff_flag (row : Contact) :
    generate_personalized_message { row with linkedinFlag := true } =
      (generate_personalized_message { row with linkedinFlag := false }).map
        (fun m => m ++ LINKEDIN_SUFFIX) ∧
    generate_personalized_message { row with linkedinFlag := false } =
      (greetingName row.name).map (fun g => baseMessage g row) := by
  obtain ⟨e, n, j, a, l⟩ := row
  constructor
  · cases hg : greetingName n with
    | none => simp [generate_personalized_message, hg]
    | some g =>
      simp only [generate_personalized_message, hg, Option.map_some']
      rw [withLinkedinSuffix_true ⟨e, n, j, a, true⟩ _ rfl,
        withLinkedinSuffix_false ⟨e, n, j, a, false⟩ _ rfl]
      rfl
  · cases hg : greetingName n with
    | none => simp [generate_personalized_message, hg]
    | some g =>
      simp only [generate_personalized_message, hg, Option.map_some']
      rw [withLinkedinSuffix_false ⟨e, n, j, a, false⟩ _ rfl]
      rfl

/-! ## C2: the 2x2 base template selection -/

theorem baseMessage_eq_table (g : String) (row : Contact) :
    baseMessage g row =
      match effectiveTitle row, row.hasJoinedEvent with
      | some jt, true =>
          "🎉 Hey " ++ g ++ ", thanks for joining our session! As a " ++
            pyLower jt ++
            ", we think you\x27ll love our upcoming AI workflow tools. Want early access?"
      | some jt, false =>
          "Hi " ++ g ++
            ", sorry we missed you at the last event! We\x27re preparing another session that might better suit your interests as a " ++
            jt ++ ". Hope to see you next time!"
      | none, true =>
          "🎉 Hey " ++ g ++
            ", thanks for joining our session! We\x27re excited to have had you participate and would love to keep you updated on our upcoming events and tools!"
      | none, false =>
          "Hi " ++ g ++
            ", sorry we missed you at the last event! We\x27re preparing another session with exciting content that we think you\x27ll find valuable. Hope to see you next time!" := by
  cases hb : row.hasJoinedEvent
  all_goals cases ht : pyJobTitle row with
    | none => simp [baseMessage, effectiveTitle, hb, ht]
    | some t =>
      by_cases hu : pyLower t = "unemployed" <;>
        simp [baseMessage, effectiveTitle, hb, ht, hu]

/-- C2: the base template is selected by the 2x2 branch on
(attended, effective-title-present): attended with a title gives the
celebratory message referencing the LOWERCASED title; not attended with a
title gives the apology message referencing the title VERBATIM (not
lowercased); with the title absent the corresponding generic celebratory
or apology template is used, with no job reference. -/
theorem base_template_2x2 (row : Contact) (g : String)
    (hg : greetingName row.name = some g) :
    generate_personalized_message row = some (withLinkedinSuffix row
      (match effectiveTitle row, row.hasJoinedEvent with
       | some jt, true =>
           "🎉 Hey " ++ g ++ ", thanks for joining our session! As a " ++
             pyLower jt ++
             ", we think you\x27ll love our upcoming AI workflow tools. Want early access?"
       | some jt, false =>
           "Hi " ++ g ++
             ", sorry we missed you at the last event! We\x27re preparing another session that might better suit your interests as a " ++
             jt ++ ". Hope to see you next time!"
       | none, true =>
           "🎉 Hey " ++ g ++
             ", thanks for joining our session! We\x27re excited to have had you participate and would love to keep you updated on our upcoming events and tools!"
       | none, false =>
           "Hi " ++ g ++
             ", sorry we missed you at the last event! We\x27re preparing another session with exciting content that we think you\x27ll find valuable. Hope to see you next time!")) := by
  simp only [generate_personalized_message, hg, Option.map_some']
  rw [baseMessage_eq_table]

/-- C2 witness: the attended, titled branch at a concrete contact; the
title Engineer appears lowercased. -/
theorem base_template_2x2_witness :
    generate_personalized_message
        ⟨"sam@example.com", "Sam Lee", some "Engineer", true, false⟩ =
      some (withLinkedinSuffix
        ⟨"sam@example.com", "Sam Lee", some "Engineer", true, false⟩
        (match effectiveTitle
            ⟨"sam@example.com", "Sam Lee", some "Engineer", true, false⟩,
          (⟨"sam@example.com", "Sam Lee", some "Engineer", true, false⟩ :
            Contact).hasJoinedEvent with
         | some jt, true =>
             "🎉 Hey " ++ "Sam" ++ ", thanks for joining our session! As a " ++
               pyLower jt ++
               ", we think you\x27ll love our upcoming AI workflow tools. Want early access?"
         | some jt, false =>
             "Hi " ++ "Sam" ++
               ", sorry we missed you at the last event! We\x27re preparing another session that might better suit your interests as a " ++
               jt ++ ". Hope to see you next time!"
         | none, true =>
             "🎉 Hey " ++ "Sam" ++
               ", thanks for joining our session! We\x27re excited to have had you participate and would love to keep you updated on our upcoming events and tools!"
         | none, false =>
             "Hi " ++ "Sam" ++
               ", sorry we missed you at the last event! We\x27re preparing another session with exciting content that we think you\x27ll find valuable. Hope to see you next time!")) :=
  base_template_2x2 ⟨"sam@example.com", "Sam Lee", some "Engineer", true, false⟩
    "Sam" (by decide)

/-! ## C4: the greeting name -/

theorem baseMessage_shape (g : String) (row : Contact) :
    ∃ r, baseMessage g row = "🎉 Hey " ++ (g ++ r) ∨
         baseMessage g row = "Hi " ++ (g ++ r) := by
  rw [baseMessage_eq_table]
  cases ht : effectiveTitle row with
  | some t =>
    cases hb : row.hasJoinedEvent with
    | true =>
      refine ⟨", thanks for joining our session! As a " ++ (pyLower t ++
        ", we think you\x27ll love our upcoming AI workflow tools. Want early access?"),
        Or.inl ?_⟩
      simp [String.append_assoc]
    | false =>
      refine ⟨", sorry we missed you at the last event! We\x27re preparing another session that might better suit your interests as a " ++
        (t ++ ". Hope to see you next time!"), Or.inr ?_⟩
      simp [String.append_assoc]
  | none =>
    cases hb : row.hasJoinedEvent with
    | true =>
      refine ⟨", thanks for joining our session! We\x27re excited to have had you participate and would love to keep you updated on our upcoming events and tools!",
        Or.inl ?_⟩
      simp [String.append_assoc]
    | false =>
      refine ⟨", sorry we missed you at the last event! We\x27re preparing another session with exciting content that we think you\x27ll find valuable. Hope to see you next time!",
        Or.inr ?_⟩
      simp [String.append_assoc]

theorem generate_shape (row : Contact) (g : String) :
    ∃ r, withLinkedinSuffix row (baseMessage g row) = "🎉 Hey " ++ (g ++ r) ∨
         withLinkedinSuffix row (baseMessage g row) = "Hi " ++ (g ++ r) := by
  obtain ⟨r, h | h⟩ := baseMessage_shape g row <;> cases hl : row.linkedinFlag
  · exact ⟨r, Or.inl (by rw [withLinkedinSuffix_false _ _ hl, h])⟩
  · refine ⟨r ++ LINKEDIN_SUFFIX, Or.inl ?_⟩
    rw [withLinkedinSuffix_true _ _ hl, h]
    simp [String.append_assoc]
  · exact ⟨r, Or.inr (by rw [withLinkedinSuffix_false _ _ hl, h])⟩
  · refine ⟨r ++ LINKEDIN_SUFFIX, Or.inr ?_⟩
    rw [withLinkedinSuffix_true _ _ hl, h]
    simp [String.append_assoc]

/-- C4: the message greets the contact by the first whitespace-delimited
token of the name, or by the literal `"there"` when the name is empty:
every generated message starts with `"🎉 Hey "` or `"Hi "` followed
immediately by that greeting name. -/
theorem greeting_first_token (row : Contact) (m : String)
    (hm : generate_personalized_message row = some m) :
    ∃ g rest, (m = "🎉 Hey " ++ (g ++ rest) ∨ m = "Hi " ++ (g ++ rest)) ∧
      ((row.name = "" ∧ g = "there") ∨
        (row.name ≠ "" ∧ (pySplit row.name).head? = some g)) := by
  cases hg : greetingName row.name with
  | none =>
    simp only [generate_personalized_message, hg, Option.map_none'] at hm
    cases hm
  | some g =>
    simp only [generate_personalized_message, hg, Option.map_some',
      Option.some.injEq] at hm
    obtain ⟨r, hr⟩ := generate_shape row g
    refine ⟨g, r, ?_, ?_⟩
    · rw [← hm]; exact hr
    · by_cases hn : row.name = ""
      · rw [greetingName, if_pos hn] at hg
        injection hg with hg
        exact Or.inl ⟨hn, hg.symm⟩
      · rw [greetingName, if_neg hn] at hg
        exact Or.inr ⟨hn, hg⟩

/-- C4 witness: `name="Jane Doe"` yields a greeting using `"Jane"`. -/
theorem greeting_first_token_witness :
    ∃ g rest,
      ("Hi Jane, sorry we missed you at the last event! We\x27re preparing another session with exciting content that we think you\x27ll find valuable. Hope to see you next time!" =
          "🎉 Hey " ++ (g ++ rest) ∨
        "Hi Jane, sorry we missed you at the last event! We\x27re preparing another session with exciting content that we think you\x27ll find valuable. Hope to see you next time!" =
          "Hi " ++ (g ++ rest)) ∧
      (((⟨"jd@example.com", "Jane Doe", none, false, false⟩ : Contact).name = "" ∧
          g = "there") ∨
        ((⟨"jd@example.com", "Jane Doe", none, false, false⟩ : Contact).name ≠ "" ∧
          (pySplit (⟨"jd@example.com", "Jane Doe", none, false, false⟩ :
            Contact).name).head? = some g)) :=
  greeting_first_token ⟨"jd@example.com", "Jane Doe", none, false, false⟩
    "Hi Jane, sorry we missed you at the last event! We\x27re preparing another session with exciting content that we think you\x27ll find valuable. Hope to see you next time!"
    (by decide)

/-! ## C6: one message per contact, in order -/

/-- C6 (amended): for every ordered input sequence whose contacts all
have a workable name (empty, or with at least one token),
`generate_all_messages` returns exactly one output record per input
contact, in input order, one-to-one by email; the embedding is a pure
function, so the input records are unchanged.  With any contact whose
name is nonempty all-whitespace in the sequence, the iteration raises
`IndexError` instead and produces no output. -/
theorem generate_all_messages_ok (rows : List Contact)
    (h : ∀ c ∈ rows, nameOk c) :
    ∃ out, generate_all_messages rows = some out ∧
      out.length = rows.length ∧
      out.map GeneratedMessage.email = rows.map Contact.email := by
  induction rows with
  | nil => exact ⟨[], rfl, rfl, rfl⟩
  | cons row rest ih =>
    obtain ⟨m, hm, -⟩ := exists_generate_some row (h row (by simp))
    obtain ⟨out, hout, hlen, hmail⟩ := ih (fun c hc => h c (by simp [hc]))
    refine ⟨{ email := row.email, name := row.name, message := m,
              has_joined_event := row.hasJoinedEvent,
              job_title := row.jobTitle } :: out, ?_, ?_, ?_⟩
    · simp only [generate_all_messages, hm, hout]
    · simp [hlen]
    · simp [hmail]

/-- C6 witness: a concrete two-contact batch produces two records with
the emails copied in order. -/
theorem generate_all_messages_ok_witness :
    ∃ out, generate_all_messages
        [⟨"ana@example.com", "Ana Lopez", some "Engineer", true, false⟩,
         ⟨"bo@example.com", "", none, false, true⟩] = some out ∧
      out.length = ([⟨"ana@example.com", "Ana Lopez", some "Engineer", true, false⟩,
         ⟨"bo@example.com", "", none, false, true⟩] : List Contact).length ∧
      out.map GeneratedMessage.email =
        ([⟨"ana@example.com", "Ana Lopez", some "Engineer", true, false⟩,
         ⟨"bo@example.com", "", none, false, true⟩] : List Contact).map Contact.email :=
  generate_all_messages_ok
    [⟨"ana@example.com", "Ana Lopez", some "Engineer", true, false⟩,
     ⟨"bo@example.com", "", none, false, true⟩] (by decide)

/-- C6 counterexample: a sequence containing one contact whose name is a
single tab (nonempty, all whitespace) yields no output records at all —
the loop raises `IndexError` at that row — refuting the claim for every
input sequence. -/
theorem generate_all_messages_counterexample :
    generate_all_messages [⟨"tab@example.com", "\t", none, false, true⟩] = none := by
  decide

/-! ## C8: queue item shape -/

theorem queueItemsFrom_shape (df : List Contact) (msgs : List MessageRecord) :
    ∀ (i : Nat) (q : List QueueItem),
      queueItemsFrom df msgs i = some q →
      q.length = msgs.length ∧
      ∀ j (hj : j < q.length) (hj2 : j < msgs.length),
        ∃ u, (df.filter (fun v => v.email == (msgs.get ⟨j, hj2⟩).email)).head? = some u ∧
          (q.get ⟨j, hj⟩).recipient_email = (msgs.get ⟨j, hj2⟩).email ∧
          (q.get ⟨j, hj⟩).message_text = (msgs.get ⟨j, hj2⟩).message ∧
          (q.get ⟨j, hj⟩).priority = (if u.hasJoinedEvent then "high" else "normal") ∧
          (q.get ⟨j, hj⟩).scheduled_delay_minutes = (if u.hasJoinedEvent then 0 else 30) ∧
          (q.get ⟨j, hj⟩).retry_count = 0 ∧
          (q.get ⟨j, hj⟩).max_retries = 3 ∧
          (q.get ⟨j, hj⟩).status = "pending" := by
  induction msgs with
  | nil =>
    intro i q hq
    simp only [queueItemsFrom, Option.some.injEq] at hq
    subst hq
    exact ⟨rfl, fun j hj hj2 => absurd hj2 (by simp)⟩
  | cons msg rest ih =>
    intro i q hq
    cases hu : (df.filter (fun v => v.email == msg.email)).head? with
    | none =>
      simp only [queueItemsFrom, hu] at hq
      cases hq
    | some u =>
      cases hrec : queueItemsFrom df rest (i + 1) with
      | none =>
        simp only [queueItemsFrom, hu, hrec] at hq
        cases hq
      | some qs =>
        simp only [queueItemsFrom, hu, hrec, Option.some.injEq] at hq
        subst hq
        obtain ⟨hlen, hitems⟩ := ih (i + 1) qs hrec
        refine ⟨by simp [hlen], ?_⟩
        intro j hj hj2
        cases j with
        | zero => exact ⟨u, hu, rfl, rfl, rfl, rfl, rfl, rfl, rfl⟩
        | succ j =>
          obtain ⟨u2, hu2, h⟩ := hitems j
            (by simp only [List.length_cons] at hj; omega)
            (by simp only [List.length_cons] at hj2; omega)
          exact ⟨u2, hu2, h⟩

/-- C8: when the queue artifact is produced, it holds exactly one item
per loaded message, in order; each item carries priority `"high"` when
the first data-frame contact with the message email attended and
`"normal"` otherwise, a scheduling delay (0 minutes for attendees, 30
otherwise), `retry_count` initialized to 0, the fixed cap
`max_retries = 3`, and `status` initialized to `"pending"`. -/
theorem create_message_queue_shape (df : List Contact)
    (msgs : List MessageRecord) (q : List QueueItem)
    (hq : create_message_queue df msgs = some q) :
    q.length = msgs.length ∧
    ∀ j (hj : j < q.length) (hj2 : j < msgs.length),
      ∃ u, (df.filter (fun v => v.email == (msgs.get ⟨j, hj2⟩).email)).head? = some u ∧
        (q.get ⟨j, hj⟩).recipient_email = (msgs.get ⟨j, hj2⟩).email ∧
        (q.get ⟨j, hj⟩).message_text = (msgs.get ⟨j, hj2⟩).message ∧
        (q.get ⟨j, hj⟩).priority = (if u.hasJoinedEvent then "high" else "normal") ∧
        (q.get ⟨j, hj⟩).scheduled_delay_minutes = (if u.hasJoinedEvent then 0 else 30) ∧
        (q.get ⟨j, hj⟩).retry_count = 0 ∧
        (q.get ⟨j, hj⟩).max_retries = 3 ∧
        (q.get ⟨j, hj⟩).status = "pending" :=
  queueItemsFrom_shape df msgs 0 q hq

/-- C8 witness: a two-message queue over a two-contact data frame; the
attendee gets priority high with no delay, the absentee priority normal
with a 30 minute delay, both with retry 0, cap 3, status pending. -/
theorem create_message_queue_shape_witness :
    ([⟨"msg_001", "ana@example.com", "hello Ana", "high", 0,
        ["event_followup", "automated"], 0, 3, "pending"⟩,
      ⟨"msg_002", "bo@example.com", "hello Bo", "normal", 30,
        ["event_followup", "automated"], 0, 3, "pending"⟩] :
      List QueueItem).length =
      ([⟨"ana@example.com", "hello Ana"⟩, ⟨"bo@example.com", "hello Bo"⟩] :
        List MessageRecord).length ∧
    (∃ u, (([⟨"ana@example.com", "Ana", none, true, false⟩,
             ⟨"bo@example.com", "Bo", none, false, false⟩] :
            List Contact).filter (fun v => v.email == "ana@example.com")).head? = some u ∧
      "ana@example.com" = "ana@example.com" ∧
      "hello Ana" = "hello Ana" ∧
      "high" = (if u.hasJoinedEvent then "high" else "normal") ∧
      (0 : Nat) = (if u.hasJoinedEvent then 0 else 30) ∧
      (0 : Nat) = 0 ∧ (3 : Nat) = 3 ∧ "pending" = "pending") ∧
    (∃ u, (([⟨"ana@example.com", "Ana", none, true, false⟩,
             ⟨"bo@example.com", "Bo", none, false, false⟩] :
            List Contact).filter (fun v => v.email == "bo@example.com")).head? = some u ∧
      "bo@example.com" = "bo@example.com" ∧
      "hello Bo" = "hello Bo" ∧
      "normal" = (if u.hasJoinedEvent then "high" else "normal") ∧
      (30 : Nat) = (if u.hasJoinedEvent then 0 else 30) ∧
      (0 : Nat) = 0 ∧ (3 : Nat) = 3 ∧ "pending" = "pending") :=
  ⟨(create_message_queue_shape
      [⟨"ana@example.com", "Ana", none, true, false⟩,
       ⟨"bo@example.com", "Bo", none, false, false⟩]
      [⟨"ana@example.com", "hello Ana"⟩, ⟨"bo@example.com", "hello Bo"⟩]
      [⟨"msg_001", "ana@example.com", "hello Ana", "high", 0,
         ["event_followup", "automated"], 0, 3, "pending"⟩,
       ⟨"msg_002", "bo@example.com", "hello Bo", "normal", 30,
         ["event_followup", "automated"], 0, 3, "pending"⟩] (by decide)).1,
   (create_message_queue_shape
      [⟨"ana@example.com", "Ana", none, true, false⟩,
       ⟨"bo@example.com", "Bo", none, false, false⟩]
      [⟨"ana@example.com", "hello Ana"⟩, ⟨"bo@example.com", "hello Bo"⟩]
      [⟨"msg_001", "ana@example.com", "hello Ana", "high", 0,
         ["event_followup", "automated"], 0, 3, "pending"⟩,
       ⟨"msg_002", "bo@example.com", "hello Bo", "normal", 30,
         ["event_followup", "automated"], 0, 3, "pending"⟩] (by decide)).2
     0 (by decide) (by decide),
   (create_message_queue_shape
      [⟨"ana@example.com", "Ana", none, true, false⟩,
       ⟨"bo@example.com", "Bo", none, false, false⟩]
      [⟨"ana@example.com", "hello Ana"⟩, ⟨"bo@example.com", "hello Bo"⟩]
      [⟨"msg_001", "ana@example.com", "hello Ana", "high", 0,
         ["event_followup", "automated"], 0, 3, "pending"⟩,
       ⟨"msg_002", "bo@example.com", "hello Bo", "normal", 30,
         ["event_followup", "automated"], 0, 3, "pending"⟩] (by decide)).2
     1 (by decide) (by decide)⟩

/-! ## C9: failure isolation in the email batch loop -/

theorem countP_add_countP_not (p : Nat → Bool) (l : List Nat) :
    l.countP p + l.countP (fun a => !p a) = l.length := by
  induction l with
  | nil => simp
  | cons a l ih => cases hp : p a <;> simp [List.countP_cons, hp] <;> omega

theorem sendLoop_spec (sendOk : Nat → Bool) (msgs : List MessageRecord) :
    ∀ (i succ fail : Nat),
      sendLoop sendOk msgs i succ fail =
        ⟨msgs.map MessageRecord.email,
         succ + (List.range' i msgs.length).countP sendOk,
         fail + (List.range' i msgs.length).countP (fun j => !sendOk j)⟩ := by
  induction msgs with
  | nil => intro i succ fail; simp [sendLoop, List.range']
  | cons msg rest ih =>
    intro i succ fail
    cases hs : sendOk i <;>
      simp only [sendLoop, hs, List.length_cons, List.range'_succ, List.map_cons,
        Bool.false_eq_true, if_false, if_true, ite_true, ite_false] <;>
      rw [ih] <;>
      simp [List.countP_cons, hs, BatchOutcome.mk.injEq] <;>
      omega

/-- C9: a single failed delivery never aborts the batch: whatever the
per-item outcomes, every message is attempted in order, each per-item
failure is caught and counted, and the final summary counters satisfy
successes + failures = batch size. -/
theorem batch_isolates_failures (sendOk : Nat → Bool) (msgs : List MessageRecord) :
    (send_batch_emails sendOk msgs).attempted = msgs.map MessageRecord.email ∧
    (send_batch_emails sendOk msgs).successful_sends =
      (List.range msgs.length).countP sendOk ∧
    (send_batch_emails sendOk msgs).failed_sends =
      (List.range msgs.length).countP (fun j => !sendOk j) ∧
    (send_batch_emails sendOk msgs).successful_sends +
        (send_batch_emails sendOk msgs).failed_sends = msgs.length := by
  have h := sendLoop_spec sendOk msgs 0 0 0
  unfold send_batch_emails
  rw [h]
  have h2 := countP_add_countP_not sendOk (List.range' 0 msgs.length)
  have h3 : (List.range' 0 msgs.length).length = msgs.length := by simp
  refine ⟨rfl, by simp [List.range_eq_range'], by simp [List.range_eq_range'], ?_⟩
  dsimp only
  omega
